import Mathlib

/-!
# Verification of the mpv-downmix-gui downmix-coefficient engine

Shallow embedding of `src/mpv_downmix_gui/mpv_downmix_gui.py` and
`src/mpv_downmix_gui/tk_scale_debounced.py`.

Modelling conventions:
* Python floats are modelled as exact rationals (`ℚ`); the claims state
  floating-point tolerances, and exact equality over `ℚ` is the idealised
  form of those statements.
* Python dicts keyed by strings are modelled as total functions
  `String → ℚ` together with an explicit key list where the code iterates
  over the dict (`Coeffs.channels`), or as association lists where lookup
  failure matters (the layout table).
* Fallible Python code (unhandled `ZeroDivisionError`, `KeyError`,
  `AttributeError`, failing `assert`) is modelled with `Except PyError`.
* Python string operations are modelled on the character list of the
  string: `s.startswith(p)`, `s[4:]`, `s[-1]`, `s[:-1]`.
* The module `downmix_rfc7845` is imported by the program but is not part
  of the repository sources; its two functions are modelled from the spec
  (see the doc comments on `reference_gain`, `get_coefficients` and
  `get_ffmpeg_audio_filter`).
-/

/-- Python `s.startswith(p)`, on the character list of the string. -/
def str_starts_with (s p : String) : Bool := p.data.isPrefixOf s.data

/-- Python slice `s[n:]`. -/
def str_drop (s : String) (n : Nat) : String := String.mk (s.data.drop n)

/-- Python `s[-1]` (the keys fed to it are never empty; the default
character is unreachable on the program's inputs). -/
def str_last (s : String) : Char := s.data.getLastD '?'

/-- Python slice `s[:-1]`. -/
def str_drop_last (s : String) : String := String.mk s.data.dropLast

/-- The unhandled Python exceptions the embedded code can raise. -/
inductive PyError where
  | zeroDivisionError
  | keyError
  | attributeError
  | assertionError
deriving DecidableEq

/-- A coefficient matrix: the Python pair of dicts
`{"FL": {ch: w, ...}, "FR": {ch: w, ...}}`.  `channels` is the shared key
list of the two inner dicts (the code iterates `for channel in
downmix_coefficients["FL"]`); `fl`/`fr` give the per-channel weights. -/
structure Coeffs where
  channels : List String
  fl : String → ℚ
  fr : String → ℚ

/-- Embeds `get_channel_volume` (mpv_downmix_gui.py lines 49-52):
`L, R = coefficients["FL"][channel], coefficients["FR"][channel]; return R + L`. -/
def get_channel_volume (coefficients : Coeffs) (channel : String) : ℚ :=
  coefficients.fr channel + coefficients.fl channel

/-- Embeds `get_channel_balance` (lines 54-57): `return (R - L) / (R + L)`.
Python raises `ZeroDivisionError` when `R + L == 0`, hence the `Except`. -/
def get_channel_balance (coefficients : Coeffs) (channel : String) : Except PyError ℚ :=
  let L := coefficients.fl channel
  let R := coefficients.fr channel
  if R + L = 0 then Except.error PyError.zeroDivisionError
  else Except.ok ((R - L) / (R + L))

/-- Embeds `get_left_right_coefficient` (lines 59-63). -/
def get_left_right_coefficient (volume balance : ℚ) : ℚ × ℚ :=
  ((1 - balance) * volume / 2, (1 + balance) * volume / 2)

/-- Pointwise update of a string-keyed dict modelled as a function. -/
def fun_update (f : String → ℚ) (k : String) (v : ℚ) : String → ℚ :=
  fun x => if x = k then v else f x

/-- One iteration of the `after_change` loop body (lines 348-353) for a
single channel: store `get_left_right_coefficient(volume, balance)` into
`c["FL"][channel]`, `c["FR"][channel]`.  This is the spec's
`applyVolumeBalance`. -/
def set_channel_coefficient (c : Coeffs) (channel : String) (volume balance : ℚ) : Coeffs :=
  let lr := get_left_right_coefficient volume balance
  { c with fl := fun_update c.fl channel lr.1, fr := fun_update c.fr channel lr.2 }

/-- A 3×3 grid of optional channel-role labels. -/
abbrev Grid := List (List (Option String))

def grid_empty : Grid := [[none, none, none], [none, none, none], [none, none, none]]

def grid_mono : Grid := [[none, some "FC", none], [none, none, none], [none, none, none]]

def grid_stereo : Grid := [[some "FL", none, some "FR"], [none, none, none], [none, none, none]]

def grid_2_1 : Grid := [[some "FL", none, some "FR"], [none, some "LFE", none], [none, none, none]]

def grid_3_0 : Grid := [[some "FL", some "FC", some "FR"], [none, none, none], [none, none, none]]

def grid_3_0_back : Grid := [[some "FL", none, some "FR"], [none, none, none], [none, some "BC", none]]

def grid_3_1 : Grid := [[some "FL", some "FC", some "FR"], [none, some "LFE", none], [none, none, none]]

def grid_3_1_back : Grid := [[some "FL", none, some "FR"], [none, some "LFE", none], [none, some "BC", none]]

def grid_4_0 : Grid := [[some "FL", some "FC", some "FR"], [none, none, none], [none, some "BC", none]]

def grid_4_1 : Grid := [[some "FL", some "FC", some "FR"], [none, some "LFE", none], [none, some "BC", none]]

def grid_quad : Grid := [[some "FL", none, some "FR"], [none, none, none], [some "BL", none, some "BR"]]

def grid_4_1_alsa : Grid := [[some "FL", none, some "FR"], [none, some "LFE", none], [some "BL", none, some "BR"]]

def grid_quad_side : Grid := [[some "FL", none, some "FR"], [some "SL", none, some "SR"], [none, none, none]]

def grid_5_0 : Grid := [[some "FL", some "FC", some "FR"], [none, none, none], [some "BL", none, some "BR"]]

def grid_5_0_side : Grid := [[some "FL", some "FC", some "FR"], [some "SL", none, some "SR"], [none, none, none]]

def grid_5_1 : Grid := [[some "FL", some "FC", some "FR"], [none, some "LFE", none], [some "BL", none, some "BR"]]

def grid_5_1_side : Grid := [[some "FL", some "FC", some "FR"], [some "SL", some "LFE", some "SR"], [none, none, none]]

def grid_6_0 : Grid := [[some "FL", some "FC", some "FR"], [some "SL", none, some "SR"], [none, some "BC", none]]

def grid_hexagonal : Grid := [[some "FL", some "FC", some "FR"], [none, none, none], [some "BL", some "BC", some "BR"]]

def grid_6_1 : Grid := [[some "FL", some "FC", some "FR"], [some "SL", some "LFE", some "SR"], [none, some "BC", none]]

def grid_6_1_back : Grid := [[some "FL", some "FC", some "FR"], [none, some "LFE", none], [some "BL", some "BC", some "BR"]]

def grid_7_0 : Grid := [[some "FL", some "FC", some "FR"], [some "SL", none, some "SR"], [some "BL", none, some "BR"]]

def grid_7_1 : Grid := [[some "FL", some "FC", some "FR"], [some "SL", some "LFE", some "SR"], [some "BL", none, some "BR"]]

def grid_8_1 : Grid := [[some "FL", some "FC", some "FR"], [some "SL", some "LFE", some "SR"], [some "BL", some "BC", some "BR"]]

/-- The layout table `input_channel_names_by_layout` (lines 69-290),
as an association list in the insertion order of the Python dict;
aliased names map to the same grid, exactly as in the source. -/
def input_channel_names_by_layout : List (String × Grid) :=
  [("empty", grid_empty),
   ("mono", grid_mono), ("1.0", grid_mono),
   ("stereo", grid_stereo), ("2.0", grid_stereo),
   ("2.1", grid_2_1),
   ("3.0", grid_3_0),
   ("3.0(back)", grid_3_0_back),
   ("3.1", grid_3_1),
   ("3.1(back)", grid_3_1_back),
   ("4.0", grid_4_0),
   ("4.1", grid_4_1),
   ("quad", grid_quad),
   ("4.1(alsa)", grid_4_1_alsa),
   ("quad(side)", grid_quad_side),
   ("5.0", grid_5_0), ("5.0(alsa)", grid_5_0),
   ("5.0(side)", grid_5_0_side),
   ("5.1", grid_5_1), ("5.1(alsa)", grid_5_1),
   ("5.1(side)", grid_5_1_side),
   ("6.0", grid_6_0),
   ("hexagonal", grid_hexagonal),
   ("6.1", grid_6_1),
   ("6.1(back)", grid_6_1_back),
   ("7.0", grid_7_0),
   ("7.1", grid_7_1), ("7.1(alsa)", grid_7_1),
   ("8.1", grid_8_1)]

/-- Python dict lookup `input_channel_names_by_layout[name]`:
`none` models the `KeyError` case. -/
def layout_lookup (name : String) : Option Grid :=
  (input_channel_names_by_layout.find? (fun p => p.1 == name)).map (fun p => p.2)

/-- The channel roles present in a grid, row-major, skipping `None`
slots, exactly as the nested loop of `update_scale_dict_of_frame_id`
(lines 508-511) visits them. -/
def grid_channels (g : Grid) : List String :=
  g.foldr (fun row acc => row.filterMap id ++ acc) []

/-- Modelled from the spec: the per-role reference downmix gains of the
missing module `downmix_rfc7845` (spec §4.2: front-left/front-right
contribute fully to their own side, front-center equally to both sides
at a reduced gain, surround/back channels at a further reduced gain, LFE
attenuated; the literal constants are pinned by the external standard,
which is not part of the sources — no claim depends on their values). -/
def reference_gain (role : String) : ℚ × ℚ :=
  if role = "FL" then (1, 0)
  else if role = "FR" then (0, 1)
  else if role = "FC" then (7/10, 7/10)
  else if role = "LFE" then (1/2, 1/2)
  else if role = "SL" ∨ role = "BL" then (6/10, 0)
  else if role = "SR" ∨ role = "BR" then (0, 6/10)
  else if role = "BC" then (6/10, 6/10)
  else (0, 0)

/-- Modelled from the spec: `downmix_rfc7845.get_coefficients(layout)`
(the module is not under the repository sources).  Spec §4.2
`seedReference`: produce a reference (leftWeight, rightWeight) pair for
every channel of the resolved layout; an unknown layout is a lookup
failure, modelled as `none`. -/
def get_coefficients (layout : String) : Option Coeffs :=
  (layout_lookup layout).map (fun g =>
    let chs := grid_channels g
    { channels := chs,
      fl := fun ch => if ch ∈ chs then (reference_gain ch).1 else 0,
      fr := fun ch => if ch ∈ chs then (reference_gain ch).2 else 0 })

/-- Modelled from the spec: fixed 3-decimal formatting of a weight
(spec §4.4; sign carried in the numeric literal). -/
def fmt3 (q : ℚ) : String :=
  let m : Int := Rat.floor (q * 1000 + 1/2)
  let a : Nat := m.natAbs
  let fracPad : String := if a % 1000 < 10 then "00" else if a % 1000 < 100 then "0" else ""
  (if m < 0 then "-" else "") ++ toString (a / 1000) ++ "." ++ fracPad ++ toString (a % 1000)

/-- Modelled from the spec: one `<terms>` list of the pan grammar,
`role1*w1+role2*w2+...` over the matrix's channels (spec §4.4). -/
def pan_terms (w : String → ℚ) (chs : List String) : String :=
  String.intercalate "+" (chs.map (fun ch => ch ++ "*" ++ fmt3 (w ch)))

/-- Modelled from the spec: `downmix_rfc7845.get_ffmpeg_audio_filter`
(the module is not under the repository sources).  Spec §4.4:
`pan=stereo|FL=<terms>|FR=<terms>`, beginning with the literal
`pan=stereo|FL=`. -/
def get_ffmpeg_audio_filter (c : Coeffs) : String :=
  "pan=stereo|FL=" ++
    (pan_terms c.fl c.channels ++ ("|FR=" ++ pan_terms c.fr c.channels))

/-- The mutable state of `main()` that the claims concern:
`input_channel_layout`, `input_channel_names`, `downmix_coefficients`,
the values held by `scale_dict` (keyed `"volume.CH"` / `"balance.CH"`),
the last rendered `audio_filter`, plus the observable outputs: `print`
diagnostics and `af_cmd` pushes to mpv. -/
structure AppState where
  input_channel_layout : Option String
  input_channel_names : Grid
  downmix_coefficients : Coeffs
  scales : String → ℚ
  audio_filter : String
  messages : List String
  pushes : List String

/-- A `print` call. -/
def log_msg (st : AppState) (m : String) : AppState :=
  { st with messages := st.messages ++ [m] }

/-- The `after_change` recompute loop (lines 348-353): for every channel
key of `downmix_coefficients["FL"]`, read the volume and balance scales
and store `get_left_right_coefficient` into the matrix. -/
def recompute_coefficients (sc : String → ℚ) : List String → Coeffs → Coeffs
  | [], c => c
  | ch :: rest, c =>
      let lr := get_left_right_coefficient (sc ("volume." ++ ch)) (sc ("balance." ++ ch))
      recompute_coefficients sc rest
        { c with fl := fun_update c.fl ch lr.1, fr := fun_update c.fr ch lr.2 }

/-- Embeds `after_change` (lines 346-361): recompute the matrix from the scale
values, serialize it, `assert audio_filter.startswith("pan=stereo|FL=")`,
print it, and push `'pan="' + audio_filter[4:] + '"'` to mpv via
`af_cmd`. -/
def after_change (st : AppState) : Except PyError AppState :=
  let c := recompute_coefficients st.scales st.downmix_coefficients.channels
             st.downmix_coefficients
  let audio_filter := get_ffmpeg_audio_filter c
  if str_starts_with audio_filter "pan=stereo|FL=" then
    Except.ok { st with
      downmix_coefficients := c,
      audio_filter := audio_filter,
      messages := st.messages ++ ["\n" ++ audio_filter ++ "\n"],
      pushes := st.pushes ++ ["pan=" ++ "\"" ++ str_drop audio_filter 4 ++ "\""] }
  else Except.error PyError.assertionError

/-- The volume pass of `update_scale_dict` (frame "volume"): build one
scale per grid channel with init value `get_channel_volume`. -/
def init_volume_scales (c : Coeffs) : List String → (String → ℚ) → (String → ℚ)
  | [], sc => sc
  | ch :: rest, sc =>
      init_volume_scales c rest (fun_update sc ("volume." ++ ch) (get_channel_volume c ch))

/-- The balance pass of `update_scale_dict` (frame "balance"): init value
`get_channel_balance`, which can raise `ZeroDivisionError`. -/
def init_balance_scales (c : Coeffs) : List String → (String → ℚ) → Except PyError (String → ℚ)
  | [], sc => Except.ok sc
  | ch :: rest, sc =>
      match get_channel_balance c ch with
      | Except.error e => Except.error e
      | Except.ok b => init_balance_scales c rest (fun_update sc ("balance." ++ ch) b)

/-- Embeds `update_scale_dict` (lines 490-530): rebuild the scale controls of
both frames from the current grid and coefficients. -/
def update_scale_dict (st : AppState) : Except PyError AppState :=
  let chs := grid_channels st.input_channel_names
  match init_balance_scales st.downmix_coefficients chs
          (init_volume_scales st.downmix_coefficients chs st.scales) with
  | Except.error e => Except.error e
  | Except.ok sc => Except.ok { st with scales := sc }

/-- Embeds `set_input_channel_layout` (lines 468-477): return unchanged on a
falsy layout; otherwise look the layout up in the table (an unhandled
`KeyError` on a name not in the table), store layout, grid and fresh
reference coefficients, and rebuild the scales. -/
def set_input_channel_layout (st : AppState) (channel_layout : Option String) :
    Except PyError AppState :=
  match channel_layout with
  | none => Except.ok st
  | some l =>
      if l = "" then Except.ok st
      else
        let st1 := log_msg st ("set_input_channel_layout " ++ l)
        match layout_lookup l with
        | none => Except.error PyError.keyError
        | some g =>
            match get_coefficients l with
            | none => Except.error PyError.keyError
            | some c =>
                update_scale_dict { st1 with
                  input_channel_layout := some l,
                  input_channel_names := g,
                  downmix_coefficients := c }

/-- The per-channel loop of `reset_downmix_to_rfc7845` (lines 366-370):
set the volume and balance scales of each channel from the freshly
seeded coefficients (`get_channel_balance` can raise). -/
def reset_scales (c : Coeffs) : List String → (String → ℚ) → Except PyError (String → ℚ)
  | [], sc => Except.ok sc
  | ch :: rest, sc =>
      match get_channel_balance c ch with
      | Except.error e => Except.error e
      | Except.ok b =>
          reset_scales c rest
            (fun_update (fun_update sc ("volume." ++ ch) (get_channel_volume c ch))
              ("balance." ++ ch) b)

/-- Embeds `reset_downmix_to_rfc7845` (lines 363-371): reseed the matrix for the
current layout, refresh all scales, then `after_change()`.  A missing
current layout is a failing lookup inside the (spec-modelled)
`downmix_rfc7845.get_coefficients`. -/
def reset_downmix_to_rfc7845 (st : AppState) : Except PyError AppState :=
  match st.input_channel_layout with
  | none => Except.error PyError.keyError
  | some l =>
      match get_coefficients l with
      | none => Except.error PyError.keyError
      | some c =>
          match reset_scales c c.channels st.scales with
          | Except.error e => Except.error e
          | Except.ok sc =>
              after_change { st with downmix_coefficients := c, scales := sc }

/-- One entry of mpv's `current-tracks/audio` notification, with the
fields the handler reads. -/
structure Track where
  id : Nat
  demux_channels : Option String
  audio_channels : Option Nat

/-- Embeds `change_audio_track` (lines 373-408).  `track.get("demux-channels")`
returning `None` makes `channel_layout.startswith` an unhandled
`AttributeError`.  On a layout starting with `"unknown"` the handler
prints a diagnostic and returns (the code below that `return`, lines
390-400, is unreachable).  Otherwise it calls
`set_input_channel_layout(input_channel_layout)` — the stale state
variable, not the received `channel_layout` — and then
`reset_downmix_to_rfc7845()`.  The debug prints of the track object and
of the final "audio track:" line are elided from `messages`; the two
layout-related prints are kept. -/
def change_audio_track (st : AppState) (track : Option Track) : Except PyError AppState :=
  match track with
  | none => Except.ok (log_msg st "audio track: None")
  | some t =>
      match t.demux_channels with
      | none => Except.error PyError.attributeError
      | some channel_layout =>
          let st1 := log_msg st ("change_audio_track channel_layout " ++ channel_layout)
          if str_starts_with channel_layout "unknown" then
            Except.ok (log_msg st1
              ("error: unknown channel layout " ++ channel_layout ++
               ". set the channel layout with --audio-channels=layout, for example --audio-channels=3.1"))
          else
            match set_input_channel_layout st1 st1.input_channel_layout with
            | Except.error e => Except.error e
            | Except.ok st2 =>
                match reset_downmix_to_rfc7845 st2 with
                | Except.error e => Except.error e
                | Except.ok st3 => Except.ok st3

/-- Embeds `on_change` (lines 451-465), the "lock sides" constraint engine.
Returns the single mirror write `other_scale.set(other_value)` performed
on the sibling control, or `none` when the handler returns without
touching any other control. -/
def on_change (lock_sides : Bool) (key : String) (value : ℚ) : Option (String × ℚ) :=
  if lock_sides = false then none
  else
    let this_side := str_last key
    if this_side = 'L' ∨ this_side = 'R' then
      let other_value := if str_starts_with key "balance." then -value else value
      let other_side := if this_side = 'R' then 'L' else 'R'
      let other_key := String.mk ((str_drop_last key).data ++ [other_side])
      some (other_key, other_value)
    else none

/-- Embeds `get_lin_value` (lines 481-482). -/
def get_lin_value (value : ℚ) : ℚ := value / 10

/-- Embeds `set_lin_value` (lines 484-485). -/
def set_lin_value (value : ℚ) : ℚ := value * 10

/-- The state of one `tk_scale_debounced` control: the configured value
transforms, the stored `DoubleVar` value, `_last_value`, and the text of
the value label. -/
structure ScaleState where
  key : String
  get_value : ℚ → ℚ
  set_value : ℚ → ℚ
  format : ℚ → String
  value : ℚ
  last_value : ℚ
  label : String

/-- Embeds `tk_scale_debounced.__init__` (lines 31-100): `_key = key or label`,
`_last_value = init_value`, `value.set(set_value(init_value))`, label
shows `format % get_value(value.get())`. -/
def tk_scale_debounced_init (label : String) (key : Option String)
    (get_value set_value : ℚ → ℚ) (format : ℚ → String) (init_value : ℚ) : ScaleState :=
  { key := key.getD label,
    get_value := get_value,
    set_value := set_value,
    format := format,
    value := set_value init_value,
    last_value := init_value,
    label := format (get_value (set_value init_value)) }

/-- Embeds `tk_scale_debounced.get` (lines 102-103). -/
def scale_get (s : ScaleState) : ℚ := s.get_value s.value

/-- Embeds `tk_scale_debounced.set` (lines 105-107): store the transformed
value and refresh the label; no callback is invoked. -/
def scale_set (s : ScaleState) (v : ℚ) : ScaleState :=
  { s with value := s.set_value v,
           label := s.format (s.get_value (s.set_value v)) }

/-- Embeds `_scale_change_done` (lines 117-121): the finalization handler run on
button release or debounce-timer expiry.  Returns the new state and the
list of `after_change(key, value)` invocations it performs. -/
def scale_change_done (s : ScaleState) : ScaleState × List (String × ℚ) :=
  let value := s.get_value s.value
  if value ≠ s.last_value then
    ({ s with last_value := value }, [(s.key, value)])
  else (s, [])

/-- The observable side effects of a UI event handler. -/
inductive UiEffect where
  | labelUpdate (key text : String)
  | scaleSet (key : String) (value : ℚ)
  | afPush (cmd : String)

/-- Whether an effect is a render-and-push to the external mpv process. -/
def UiEffect.isPush : UiEffect → Bool
  | afPush _ => true
  | _ => false

/-- Embeds `_scale_change_live` (lines 112-115) wired to the program's
`on_change`: refresh the displayed numeric readout, then let the
constraint engine write the mirrored value into the sibling control's
live value (`other_scale.set`, which itself only stores the value and
refreshes a label). -/
def scale_change_live_effects (lock_sides : Bool) (s : ScaleState) : List UiEffect :=
  UiEffect.labelUpdate s.key (s.format (s.get_value s.value)) ::
    (match on_change lock_sides s.key (s.get_value s.value) with
     | none => []
     | some kv => [UiEffect.scaleSet kv.1 kv.2])

/-- The bilateral left/right channel roles (spec §4.3): members of a
symmetric left/right pair. -/
def bilateral (role : String) : Bool :=
  role = "FL" ∨ role = "FR" ∨ role = "BL" ∨ role = "BR" ∨ role = "SL" ∨ role = "SR"

/-- The sibling of a bilateral role (spec §4.3). -/
def sibling : String → String
  | "FL" => "FR"
  | "FR" => "FL"
  | "BL" => "BR"
  | "BR" => "BL"
  | "SL" => "SR"
  | "SR" => "SL"
  | r => r

/-- All channel roles that occur in the layout table. -/
def all_roles : List String := ["FL", "FR", "FC", "LFE", "BL", "BR", "SL", "SR", "BC"]

/-- A coefficient matrix whose channel pair sums to zero: `FL` weight 1,
`FR` weight -1 on every channel. -/
def czero : Coeffs :=
  { channels := ["FC"], fl := fun _ => 1, fr := fun _ => -1 }

/-- A generic concrete matrix used by witnesses. -/
def cunit : Coeffs :=
  { channels := ["FL", "FR"], fl := fun _ => 0, fr := fun _ => 0 }

/-- The reference coefficient matrix of the "stereo" layout. -/
def stereo_coefficients : Coeffs :=
  { channels := ["FL", "FR"],
    fl := fun ch => if ch = "FL" then 1 else 0,
    fr := fun ch => if ch = "FR" then 1 else 0 }

/-- A session that has already negotiated the "stereo" layout. -/
def stereo_state : AppState :=
  { input_channel_layout := some "stereo",
    input_channel_names := grid_stereo,
    downmix_coefficients := stereo_coefficients,
    scales := fun _ => 0,
    audio_filter := "",
    messages := [],
    pushes := [] }

/-- A fresh session: no layout negotiated yet. -/
def blank_state : AppState :=
  { input_channel_layout := none,
    input_channel_names := grid_empty,
    downmix_coefficients := cunit,
    scales := fun _ => 0,
    audio_filter := "",
    messages := [],
    pushes := [] }

def stereo_reference : Coeffs :=
  { channels := ["FL", "FR"],
    fl := fun ch => if ch ∈ ["FL", "FR"] then (reference_gain ch).1 else 0,
    fr := fun ch => if ch ∈ ["FL", "FR"] then (reference_gain ch).2 else 0 }

def stereo_reset_scales (sc : String → ℚ) : String → ℚ :=
  fun_update (fun_update (fun_update (fun_update sc
    "volume.FL" (get_channel_volume stereo_reference "FL")) "balance.FL" (-1))
    "volume.FR" (get_channel_volume stereo_reference "FR")) "balance.FR" 1

def stereo_recomputed (sc : String → ℚ) : Coeffs :=
  recompute_coefficients (stereo_reset_scales sc) ["FL", "FR"] stereo_reference

def c5_track : Track := { id := 2, demux_channels := some "5.1", audio_channels := none }

def c5_st1 : AppState := log_msg stereo_state "change_audio_track channel_layout 5.1"

def c5_st2 : AppState := { c5_st1 with
  input_channel_layout := some "stereo",
  input_channel_names := grid_stereo,
  downmix_coefficients := stereo_reference,
  scales := fun_update (fun_update
    (init_volume_scales stereo_reference ["FL", "FR"] c5_st1.scales)
    "balance.FL" (-1)) "balance.FR" 1,
  messages := c5_st1.messages ++ ["set_input_channel_layout stereo"] }

def c5_final : AppState := { c5_st2 with
  downmix_coefficients := stereo_recomputed c5_st2.scales,
  scales := stereo_reset_scales c5_st2.scales,
  audio_filter := get_ffmpeg_audio_filter (stereo_recomputed c5_st2.scales),
  messages := c5_st2.messages ++
    ["\n" ++ get_ffmpeg_audio_filter (stereo_recomputed c5_st2.scales) ++ "\n"],
  pushes := c5_st2.pushes ++ ["pan=" ++ "\"" ++
    str_drop (get_ffmpeg_audio_filter (stereo_recomputed c5_st2.scales)) 4 ++ "\""] }

theorem isPrefixOf_append_self (p t : List Char) : p.isPrefixOf (p ++ t) = true := by
  induction p with
  | nil => cases t <;> rfl
  | cons a as ih => simp [List.isPrefixOf, ih]

theorem str_starts_with_append (p r : String) : str_starts_with (p ++ r) p = true := by
  obtain ⟨lp⟩ := p
  obtain ⟨lr⟩ := r
  show lp.isPrefixOf (lp ++ lr) = true
  exact isPrefixOf_append_self lp lr

theorem fun_update_same (f : String → ℚ) (k : String) (v : ℚ) : fun_update f k v k = v := by
  simp [fun_update]

/-- C1: for every channel role and every (volume, balance) with
volume > 0 and balance ∈ [-1, 1], writing the role's weights with
`get_left_right_coefficient(volume, balance)` and reading them back
yields exactly `volume` from `get_channel_volume` and exactly `balance`
from `get_channel_balance` (exact over ℚ, hence within the claimed
1e-9 tolerance); balance read-back is defined because the pair sum is
the positive volume. -/
theorem downmix_volume_balance_roundtrip (c : Coeffs) (channel : String) (v b : ℚ)
    (hv : 0 < v) (hb1 : -1 ≤ b) (hb2 : b ≤ 1) :
    get_channel_volume (set_channel_coefficient c channel v b) channel = v ∧
    get_channel_balance (set_channel_coefficient c channel v b) channel = Except.ok b := by
  have hsum : (1 + b) * v / 2 + (1 - b) * v / 2 = v := by ring
  constructor
  · simp only [get_channel_volume, set_channel_coefficient, get_left_right_coefficient]
    rw [fun_update_same, fun_update_same]
    ring
  · simp only [get_channel_balance, set_channel_coefficient, get_left_right_coefficient]
    rw [fun_update_same, fun_update_same, hsum, if_neg hv.ne']
    have hsub : (1 + b) * v / 2 - (1 - b) * v / 2 = b * v := by ring
    rw [hsub, mul_div_assoc, div_self hv.ne', mul_one]

/-- C1 witness: concrete instance at volume 2, balance 1/2. -/
theorem downmix_volume_balance_roundtrip_witness :
    (0:ℚ) < 2 ∧ (-1:ℚ) ≤ 1/2 ∧ (1:ℚ)/2 ≤ 1 ∧
    get_channel_volume (set_channel_coefficient cunit "FL" 2 (1/2)) "FL" = 2 ∧
    get_channel_balance (set_channel_coefficient cunit "FL" 2 (1/2)) "FL" = Except.ok (1/2) := by
  refine ⟨by norm_num, by norm_num, by norm_num, ?_⟩
  have h := downmix_volume_balance_roundtrip cunit "FL" 2 (1/2)
    (by norm_num) (by norm_num) (by norm_num)
  exact ⟨h.1, h.2⟩

/-- C2: on a coefficient matrix whose FL and FR weights for a channel
sum to zero, `get_channel_balance` performs the division and raises an
unhandled `ZeroDivisionError` — it does not return a
BalanceUndefined/sentinel state as the claim requires. -/
theorem balance_zero_sum_raises_division_error :
    get_channel_balance czero "FC" = Except.error PyError.zeroDivisionError := by
  simp only [get_channel_balance, czero]
  norm_num

/-- C10: a scale built with the linear transforms (`get_value` divides
by 10, `set_value` multiplies by 10) is a round-trip identity at its
public interface: `set(v)` then `get()` returns exactly `v` (exact over
ℚ, hence within floating-point tolerance). -/
theorem lin_scale_roundtrip (label : String) (key : Option String)
    (format : ℚ → String) (init v : ℚ) :
    scale_get (scale_set
      (tk_scale_debounced_init label key get_lin_value set_lin_value format init) v) = v := by
  simp only [scale_get, scale_set, tk_scale_debounced_init, get_lin_value, set_lin_value]
  ring

/-- C3: with "lock sides" enabled, `on_change` on key `view.role` writes
exactly the mirrored value into the sibling control — the negation of
the new value in the balance view, the unchanged value in the volume
view — and for non-bilateral roles (FC, LFE, BC) it mutates no other
control. -/
theorem lock_sides_mirror (view role : String) (x : ℚ)
    (hview : view ∈ ["volume", "balance"]) (hrole : role ∈ all_roles) :
    on_change true (view ++ "." ++ role) x =
      if bilateral role then
        some (view ++ "." ++ sibling role, if view = "balance" then -x else x)
      else none := by
  fin_cases hview <;> fin_cases hrole <;> rfl

/-- C3 witness: committing `balance.FL = 3/10` mirrors `-3/10` into
`balance.FR`; `volume.FC` (non-bilateral) mutates nothing. -/
theorem lock_sides_mirror_witness :
    "balance" ∈ ["volume", "balance"] ∧ "FL" ∈ all_roles ∧
    "volume" ∈ ["volume", "balance"] ∧ "FC" ∈ all_roles ∧
    on_change true ("balance" ++ "." ++ "FL") (3/10) =
      some ("balance" ++ "." ++ "FR", -(3/10 : ℚ)) ∧
    on_change true ("volume" ++ "." ++ "FC") (3/10) = none := by
  refine ⟨by simp, by simp [all_roles], by simp, by simp [all_roles], ?_, ?_⟩
  · have h := lock_sides_mirror "balance" "FL" (3/10) (by simp) (by simp [all_roles])
    simpa using h
  · have h := lock_sides_mirror "volume" "FC" (3/10) (by simp) (by simp [all_roles])
    simpa using h

/-- C8: `_scale_change_done` — the handler of both finalization events
(button release and debounce expiry) — invokes the commit callback at
most once, and exactly when the newly committed value differs from the
previously committed one; when it fires, the stored last-committed
value becomes the new value, and otherwise the control state is
untouched. -/
theorem scale_change_done_commit_once (s : ScaleState) :
    (scale_change_done s).2.length ≤ 1 ∧
    scale_change_done s =
      (if s.get_value s.value = s.last_value then (s, [])
       else ({ s with last_value := s.get_value s.value },
             [(s.key, s.get_value s.value)])) := by
  by_cases h : s.get_value s.value = s.last_value
  · constructor
    · simp [scale_change_done, h]
    · simp [scale_change_done, h]
  · constructor
    · simp [scale_change_done, h]
    · simp [scale_change_done, h]

/-- C9: a live (uncommitted) value change never pushes to the external
media process: `_scale_change_live` only refreshes the displayed numeric
readout and, through the lock-sides constraint engine, performs the
mirror write into the sibling control's live value. -/
theorem live_change_emits_no_push (lock_sides : Bool) (s : ScaleState) :
    (scale_change_live_effects lock_sides s).filter UiEffect.isPush = [] ∧
    scale_change_live_effects lock_sides s =
      UiEffect.labelUpdate s.key (s.format (s.get_value s.value)) ::
        (match on_change lock_sides s.key (s.get_value s.value) with
         | none => []
         | some kv => [UiEffect.scaleSet kv.1 kv.2]) := by
  refine ⟨?_, rfl⟩
  unfold scale_change_live_effects
  cases on_change lock_sides s.key (s.get_value s.value) with
  | none => simp [UiEffect.isPush]
  | some kv => simp [UiEffect.isPush]

theorem str_drop_pan (r : String) :
    str_drop ("pan=stereo|FL=" ++ r) 4 = "stereo|FL=" ++ r := by
  obtain ⟨l⟩ := r
  rfl

theorem get_ffmpeg_head (c : Coeffs) :
    str_starts_with (get_ffmpeg_audio_filter c) "pan=stereo|FL=" = true := by
  unfold get_ffmpeg_audio_filter
  exact str_starts_with_append _ _

theorem after_change_eq (st : AppState) :
    after_change st = Except.ok { st with
      downmix_coefficients := recompute_coefficients st.scales
        st.downmix_coefficients.channels st.downmix_coefficients,
      audio_filter := get_ffmpeg_audio_filter (recompute_coefficients st.scales
        st.downmix_coefficients.channels st.downmix_coefficients),
      messages := st.messages ++ ["\n" ++ get_ffmpeg_audio_filter (recompute_coefficients
        st.scales st.downmix_coefficients.channels st.downmix_coefficients) ++ "\n"],
      pushes := st.pushes ++ ["pan=" ++ "\"" ++ str_drop (get_ffmpeg_audio_filter
        (recompute_coefficients st.scales st.downmix_coefficients.channels
          st.downmix_coefficients)) 4 ++ "\""] } := by
  unfold after_change
  rw [if_pos (get_ffmpeg_head _)]

theorem recompute_channels (sc : String → ℚ) (l : List String) (c : Coeffs) :
    (recompute_coefficients sc l c).channels = c.channels := by
  induction l generalizing c with
  | nil => rfl
  | cons ch rest ih => simpa [recompute_coefficients] using ih _

/-- C4: `after_change` always succeeds — its `assert` holds — and the
rendered filter string begins with the literal `pan=stereo|FL=`, so the
rewrap `'pan="' + audio_filter[4:] + '"'` pushed to mpv is well-defined
for every rendered matrix. -/
theorem rendered_filter_pan_stereo_head (st : AppState) :
    ∃ st2 rest, after_change st = Except.ok st2 ∧
      st2.audio_filter = "pan=stereo|FL=" ++ rest ∧
      st2.pushes = st.pushes ++ ["pan=" ++ "\"" ++ ("stereo|FL=" ++ rest) ++ "\""] := by
  refine ⟨_, pan_terms (recompute_coefficients st.scales st.downmix_coefficients.channels
      st.downmix_coefficients).fl (recompute_coefficients st.scales
      st.downmix_coefficients.channels st.downmix_coefficients).channels ++
      ("|FR=" ++ pan_terms (recompute_coefficients st.scales
        st.downmix_coefficients.channels st.downmix_coefficients).fr
        (recompute_coefficients st.scales st.downmix_coefficients.channels
          st.downmix_coefficients).channels),
    after_change_eq st, rfl, ?_⟩
  rw [show get_ffmpeg_audio_filter (recompute_coefficients st.scales
      st.downmix_coefficients.channels st.downmix_coefficients) =
      "pan=stereo|FL=" ++ _ from rfl, str_drop_pan]

/-- C6: on an active-track notification whose channel-layout string
starts with the sentinel `"unknown"`, `change_audio_track` only prints a
diagnostic naming the layout string and suggesting an explicit
`--audio-channels` override, and leaves the layout, coefficient matrix,
scales and pushes unchanged — it does not error. -/
theorem unknown_layout_preserves_state (st : AppState) (i : Nat) (a : Option Nat)
    (l : String) (h : str_starts_with l "unknown" = true) :
    change_audio_track st (some { id := i, demux_channels := some l, audio_channels := a }) =
      Except.ok { st with messages := st.messages ++
        ["change_audio_track channel_layout " ++ l,
         "error: unknown channel layout " ++ l ++
           ". set the channel layout with --audio-channels=layout, for example --audio-channels=3.1"] } := by
  simp [change_audio_track, log_msg, h]

/-- C6 witness: layout "unknown4" on a fresh session. -/
theorem unknown_layout_preserves_state_witness :
    str_starts_with "unknown4" "unknown" = true ∧
    change_audio_track blank_state
        (some { id := 2, demux_channels := some "unknown4", audio_channels := none }) =
      Except.ok { blank_state with messages :=
        ["change_audio_track channel_layout unknown4",
         "error: unknown channel layout unknown4. set the channel layout with --audio-channels=layout, for example --audio-channels=3.1"] } := by
  constructor
  · decide
  · have h := unknown_layout_preserves_state blank_state 2 none "unknown4" (by decide)
    simpa [blank_state] using h

/-- C7: resolving a layout name that is not in the layout table — here
"bogus" — is an unhandled `KeyError` crash inside
`set_input_channel_layout`, not the defined recoverable UnknownLayout
error the claim requires. -/
theorem set_input_channel_layout_bogus_key_error :
    set_input_channel_layout blank_state (some "bogus") =
      Except.error PyError.keyError := by
  have hlook : layout_lookup "bogus" = none := by decide
  simp [set_input_channel_layout, hlook]

theorem layout_lookup_stereo : layout_lookup "stereo" = some grid_stereo := rfl

theorem get_coefficients_stereo : get_coefficients "stereo" = some stereo_reference := rfl

theorem gcb_stereo_FL : get_channel_balance stereo_reference "FL" = Except.ok (-1) := by
  have hne : ("FL" : String) ≠ "FR" := by decide
  norm_num [get_channel_balance, stereo_reference, reference_gain, hne]

theorem gcb_stereo_FR : get_channel_balance stereo_reference "FR" = Except.ok 1 := by
  have hne : ("FR" : String) ≠ "FL" := by decide
  norm_num [get_channel_balance, stereo_reference, reference_gain, hne]

theorem init_balance_stereo (sc : String → ℚ) :
    init_balance_scales stereo_reference ["FL", "FR"] sc =
      Except.ok (fun_update (fun_update sc "balance.FL" (-1)) "balance.FR" 1) := by
  simp [init_balance_scales, gcb_stereo_FL, gcb_stereo_FR]

theorem reset_scales_stereo (sc : String → ℚ) :
    reset_scales stereo_reference ["FL", "FR"] sc =
      Except.ok (stereo_reset_scales sc) := by
  simp [reset_scales, stereo_reset_scales, gcb_stereo_FL, gcb_stereo_FR]

theorem set_stereo_ok (st : AppState) :
    set_input_channel_layout st (some "stereo") =
      Except.ok { st with
        input_channel_layout := some "stereo",
        input_channel_names := grid_stereo,
        downmix_coefficients := stereo_reference,
        scales := fun_update (fun_update
          (init_volume_scales stereo_reference ["FL", "FR"] st.scales)
          "balance.FL" (-1)) "balance.FR" 1,
        messages := st.messages ++ ["set_input_channel_layout stereo"] } := by
  have hne : ("stereo" : String) ≠ "" := by decide
  simp only [set_input_channel_layout, layout_lookup_stereo, get_coefficients_stereo,
    log_msg, update_scale_dict, hne, if_neg,
    show grid_channels grid_stereo = ["FL", "FR"] from rfl, init_balance_stereo]
  rfl

theorem reset_stereo_eq (st : AppState) (h : st.input_channel_layout = some "stereo") :
    reset_downmix_to_rfc7845 st = Except.ok { st with
      downmix_coefficients := stereo_recomputed st.scales,
      scales := stereo_reset_scales st.scales,
      audio_filter := get_ffmpeg_audio_filter (stereo_recomputed st.scales),
      messages := st.messages ++
        ["\n" ++ get_ffmpeg_audio_filter (stereo_recomputed st.scales) ++ "\n"],
      pushes := st.pushes ++ ["pan=" ++ "\"" ++
        str_drop (get_ffmpeg_audio_filter (stereo_recomputed st.scales)) 4 ++ "\""] } := by
  have he : reset_downmix_to_rfc7845 st = after_change { st with
      downmix_coefficients := stereo_reference,
      scales := stereo_reset_scales st.scales } := by
    simp only [reset_downmix_to_rfc7845, h, get_coefficients_stereo,
      show stereo_reference.channels = ["FL", "FR"] from rfl, reset_scales_stereo]
  rw [he, after_change_eq]
  rfl

/-- C5: on a session whose current layout is "stereo", an active-track
notification carrying the recognized layout "5.1" leaves the layout at
"stereo" and reseeds/rebuilds/pushes for the *stale* stereo channel set
(["FL", "FR"], not 5.1's six channels): line 401 passes the old state
variable `input_channel_layout` to `set_input_channel_layout` instead of
the received `channel_layout`, contradicting the claim. -/
theorem change_audio_track_uses_stale_layout :
    change_audio_track stereo_state (some c5_track) = Except.ok c5_final ∧
    c5_final.input_channel_layout = some "stereo" ∧
    c5_final.downmix_coefficients.channels = ["FL", "FR"] ∧
    c5_final.pushes.length = 1 := by
  have hsw : str_starts_with "5.1" "unknown" = false := by decide
  refine ⟨?_, rfl, rfl, rfl⟩
  simp only [change_audio_track, c5_track, hsw, Bool.false_eq_true, if_false, log_msg,
    show stereo_state.input_channel_layout = some "stereo" from rfl,
    set_stereo_ok, reset_stereo_eq]
  rfl
